import Mathlib

/-!
Verification of the `bodsch/go-simple-server` repository (`src/cmd/server/main.go`)
against its natural-language specification.

The file shallowly embeds the program's data model and operations:

* `DelayedFlag` — the delayed, resettable boolean gate (struct `DelayedFlag` in
  the source), with `Reset`, `Load`, `Remaining`, the timer-callback body
  (`fireTimer`) and the constructor `NewDelayedFlag`.  Time is modelled as
  `Int` nanoseconds (Go `time.Duration` / `UnixNano`); the `gen` field is a
  `uint64`, modelled as `Nat` reduced modulo `2 ^ 64` on increment.
* The HTTP route handlers registered on the mux (`/healthz`, `/readyz`,
  `/admin/reset`, `/admin/health/reset`, `/admin/ready/reset`) as pure
  functions from configuration, gate state, current time and request method to
  a trace of response-writer calls.
* The middleware chain (`withMiddleware`, `requestID`, `recoverer`, `maxBody`,
  `accessLog`) and the `statusWriter` wrapper, modelled operationally over
  traces of `WriteHeader` / `Write` / header-set calls and a list of emitted
  structured log records.
-/

namespace SimpleServer

/-- `2 ^ 64`, the modulus of Go's `uint64` arithmetic used by the gate's
generation counter (`atomic.Uint64`). -/
def W64 : Nat := 2 ^ 64

/-- Embedding of the Go struct `DelayedFlag` (main.go:214-222).  `delay` and
`deadline` are `int64` nanosecond values, modelled as `Int`; `deadline = 0`
means "none".  The `timer *time.Timer` handle is modelled as the pending
scheduled transition, if any: the generation captured by the timer callback
together with the absolute time at which the timer is due to fire. -/
structure DelayedFlag where
  delay : Int
  val : Bool
  deadline : Int
  gen : Nat
  timer : Option (Nat × Int)
  deriving DecidableEq, Repr

/-- Embedding of `DelayedFlag.Reset` (main.go:237-266): increment the
generation (uint64, wrapping), store `false`, stop and drop any old timer;
for a non-positive delay clear the deadline and store `true`; otherwise set
`deadline = now + delay` and schedule a timer for the captured generation,
due at that deadline. -/
def DelayedFlag.Reset (f : DelayedFlag) (now : Int) : DelayedFlag :=
  let g := (f.gen + 1) % W64
  let f1 : DelayedFlag := { f with gen := g, val := false, timer := none }
  if f1.delay ≤ 0 then
    { f1 with deadline := 0, val := true }
  else
    let dl := now + f1.delay
    { f1 with deadline := dl, timer := some (g, dl) }

/-- Embedding of the body of the timer callback scheduled by `Reset`
(main.go:259-265), firing with its captured generation `g`: a generation
mismatch makes it a no-op, otherwise it stores `true` and clears the
deadline. -/
def DelayedFlag.fireTimer (f : DelayedFlag) (g : Nat) : DelayedFlag :=
  if f.gen ≠ g then f
  else { f with val := true, deadline := 0 }

/-- Embedding of `DelayedFlag.Load` (main.go:233). -/
def DelayedFlag.Load (f : DelayedFlag) : Bool := f.val

/-- Embedding of `DelayedFlag.Remaining` (main.go:270-280): `0` if no
deadline is set, otherwise the time until the deadline, clamped at `0`. -/
def DelayedFlag.Remaining (f : DelayedFlag) (now : Int) : Int :=
  let dl := f.deadline
  if dl ≤ 0 then 0
  else
    let rem := dl - now
    if rem < 0 then 0 else rem

/-- Embedding of `NewDelayedFlag` (main.go:226-230): Go zero values for the
remaining fields, then an immediate `Reset`. -/
def NewDelayedFlag (delay : Int) (now : Int) : DelayedFlag :=
  let f : DelayedFlag :=
    { delay := delay, val := false, deadline := 0, gen := 0, timer := none }
  f.Reset now

/-- The spec's data-model invariant (§3): if `achieved` is true then
`deadline` is "none" (stored as `0`). -/
def GateInv (f : DelayedFlag) : Prop := f.val = true → f.deadline = 0

/-- A stale timer callback (generation mismatch) changes nothing at all. -/
theorem fireTimer_stale (f : DelayedFlag) (g : Nat) (h : f.gen ≠ g) :
    f.fireTimer g = f := by
  unfold DelayedFlag.fireTimer
  rw [if_pos h]

/-- A fold of stale timer callbacks over a gate changes nothing. -/
theorem foldl_fireTimer_stale (gs : List Nat) (f : DelayedFlag)
    (h : ∀ g ∈ gs, g ≠ f.gen) :
    gs.foldl DelayedFlag.fireTimer f = f := by
  induction gs with
  | nil => rfl
  | cons g rest ih =>
    have hg : f.gen ≠ g := fun hEq => (h g (List.mem_cons_self g rest)) hEq.symm
    simp only [List.foldl_cons, fireTimer_stale f g hg]
    exact ih fun g' hg' => h g' (List.mem_cons_of_mem g hg')

/-- `Reset` preserves the configured delay. -/
theorem Reset_delay (f : DelayedFlag) (now : Int) :
    (f.Reset now).delay = f.delay := by
  unfold DelayedFlag.Reset
  dsimp only
  split <;> rfl

/-- For a positive delay, `Reset` produces the pending state with the new
generation, deadline `now + delay` and a timer scheduled for that deadline. -/
theorem Reset_pos (f : DelayedFlag) (now : Int) (hd : 0 < f.delay) :
    f.Reset now =
      { delay := f.delay, val := false, deadline := now + f.delay,
        gen := (f.gen + 1) % W64, timer := some ((f.gen + 1) % W64, now + f.delay) } := by
  unfold DelayedFlag.Reset
  dsimp only
  rw [if_neg (by omega)]

/-- For a non-positive delay, `Reset` produces the achieved state with no
deadline and no timer. -/
theorem Reset_nonpos (f : DelayedFlag) (now : Int) (hd : f.delay ≤ 0) :
    f.Reset now =
      { delay := f.delay, val := true, deadline := 0,
        gen := (f.gen + 1) % W64, timer := none } := by
  unfold DelayedFlag.Reset
  dsimp only
  rw [if_pos hd]

/-- Incrementing a wrapped `uint64` generation always changes it. -/
theorem gen_step_ne (x : Nat) (hx : x < W64) : (x + 1) % W64 ≠ x := by
  have hW : W64 = 2 ^ 64 := rfl
  simp only [hW] at hx ⊢
  omega

/-- C1: a timer callback created by a `Reset` with captured generation `g`
that fires in a state whose current generation differs from `g` leaves the
achieved state and the deadline (indeed the whole gate) unchanged;
consequently, after two `Reset`s in succession on a gate with positive
delay, the first `Reset`'s scheduled transition (captured generation
`(f.Reset t1).gen`, due at `t1 + delay`) is a no-op on the post-second-reset
state, while the second `Reset`'s live transition is due exactly at
`t2 + delay` — the second call's deadline — and only it flips the gate to
achieved. -/
theorem c1_generation_guard (f f' : DelayedFlag) (g : Nat) (t1 t2 : Int)
    (hd : 0 < f.delay) (hstale : f'.gen ≠ g) :
    f'.fireTimer g = f' ∧
    (f.Reset t1).timer = some ((f.Reset t1).gen, t1 + f.delay) ∧
    ((f.Reset t1).Reset t2).gen ≠ (f.Reset t1).gen ∧
    ((f.Reset t1).Reset t2).fireTimer (f.Reset t1).gen = (f.Reset t1).Reset t2 ∧
    ((f.Reset t1).Reset t2).val = false ∧
    ((f.Reset t1).Reset t2).deadline = t2 + f.delay ∧
    ((f.Reset t1).Reset t2).timer = some (((f.Reset t1).Reset t2).gen, t2 + f.delay) ∧
    (((f.Reset t1).Reset t2).fireTimer ((f.Reset t1).Reset t2).gen).val = true := by
  have h1 := Reset_pos f t1 hd
  have hd2 : 0 < (f.Reset t1).delay := by rw [Reset_delay]; exact hd
  have h2 := Reset_pos (f.Reset t1) t2 hd2
  have hgen1 : (f.Reset t1).gen = (f.gen + 1) % W64 := by rw [h1]
  have hlt : (f.Reset t1).gen < W64 := by
    rw [hgen1]; exact Nat.mod_lt _ (by decide)
  have hne : ((f.Reset t1).Reset t2).gen ≠ (f.Reset t1).gen := by
    rw [h2]; exact gen_step_ne _ hlt
  refine ⟨fireTimer_stale f' g hstale, ?_, hne, fireTimer_stale _ _ hne, ?_, ?_, ?_, ?_⟩
  · rw [h1]
  · rw [h2]
  · rw [h2, Reset_delay]
  · rw [h2, Reset_delay]
  · unfold DelayedFlag.fireTimer
    rw [if_neg (by simp)]

/-- Concrete gate with delay 5 used in witnesses. -/
def gate5 : DelayedFlag :=
  { delay := 5, val := false, deadline := 0, gen := 0, timer := none }

/-- Concrete gate with delay -1 used in witnesses. -/
def gateNeg : DelayedFlag :=
  { delay := -1, val := false, deadline := 0, gen := 0, timer := none }

/-- Witness for C1 at a concrete gate (delay 5, resets at times 0 and 3). -/
theorem c1_generation_guard_witness :
    ((gate5.Reset 0).Reset 3).fireTimer (gate5.Reset 0).gen = (gate5.Reset 0).Reset 3 ∧
    ((gate5.Reset 0).Reset 3).val = false ∧
    ((gate5.Reset 0).Reset 3).deadline = 3 + gate5.delay ∧
    (((gate5.Reset 0).Reset 3).fireTimer ((gate5.Reset 0).Reset 3).gen).val = true := by
  have h := c1_generation_guard gate5 gate5 7 0 3 (by decide) (by decide)
  exact ⟨h.2.2.2.1, h.2.2.2.2.1, h.2.2.2.2.2.1, h.2.2.2.2.2.2.2⟩

/-- C2: `NewDelayedFlag` is a `Reset` on the zero-valued struct; for a
non-positive delay the gate loads `true` immediately after construction and
after every `Reset`; for a positive delay it loads `false` immediately after
construction and after every `Reset`, a timer is scheduled for the current
generation due at `now + delay`, it keeps loading `false` across any
sequence of stale timer firings (generations other than the current one),
and firing the current generation's transition makes it load `true`. -/
theorem c2_load_after_reset (f : DelayedFlag) (d now : Int) (gs : List Nat) :
    (NewDelayedFlag d now =
      DelayedFlag.Reset
        { delay := d, val := false, deadline := 0, gen := 0, timer := none } now) ∧
    (d ≤ 0 → (NewDelayedFlag d now).Load = true) ∧
    (f.delay ≤ 0 → (f.Reset now).Load = true) ∧
    (0 < d → (NewDelayedFlag d now).Load = false) ∧
    (0 < f.delay →
      (f.Reset now).Load = false ∧
      (f.Reset now).timer = some ((f.Reset now).gen, now + f.delay) ∧
      ((∀ g ∈ gs, g ≠ (f.Reset now).gen) →
        (gs.foldl DelayedFlag.fireTimer (f.Reset now)).Load = false) ∧
      ((f.Reset now).fireTimer (f.Reset now).gen).Load = true) := by
  refine ⟨rfl, ?_, ?_, ?_, ?_⟩
  · intro hle
    show (NewDelayedFlag d now).val = true
    unfold NewDelayedFlag
    rw [Reset_nonpos _ _ hle]
  · intro hle
    show (f.Reset now).val = true
    rw [Reset_nonpos _ _ hle]
  · intro hpos
    show (NewDelayedFlag d now).val = false
    unfold NewDelayedFlag
    rw [Reset_pos _ _ hpos]
  · intro hpos
    refine ⟨?_, ?_, ?_, ?_⟩
    · show (f.Reset now).val = false
      rw [Reset_pos _ _ hpos]
    · rw [Reset_pos _ _ hpos]
    · intro hstale
      rw [foldl_fireTimer_stale gs _ fun g hg => (hstale g hg)]
      show (f.Reset now).val = false
      rw [Reset_pos _ _ hpos]
    · show ((f.Reset now).fireTimer (f.Reset now).gen).val = true
      unfold DelayedFlag.fireTimer
      rw [if_neg (by simp)]

/-- Witness for C2 at concrete gates (delays 5 and -1, reset at time 0,
stale firing of generation 7). -/
theorem c2_load_after_reset_witness :
    (NewDelayedFlag (-1) 0).Load = true ∧
    (gateNeg.Reset 0).Load = true ∧
    (NewDelayedFlag 5 0).Load = false ∧
    (gate5.Reset 0).Load = false ∧
    (([7].foldl DelayedFlag.fireTimer (gate5.Reset 0)).Load = false) ∧
    ((gate5.Reset 0).fireTimer (gate5.Reset 0).gen).Load = true := by
  have hneg := c2_load_after_reset gateNeg (-1) 0 [7]
  have hpos := c2_load_after_reset gate5 5 0 [7]
  have h5 := hpos.2.2.2.2 (by decide)
  exact ⟨hneg.2.1 (by decide), hneg.2.2.1 (by decide), hpos.2.2.2.1 (by decide),
    h5.1, h5.2.2.1 (by decide), h5.2.2.2⟩

/-- C3: the invariant "achieved implies no deadline" holds after
construction and is preserved by `Reset` and by the timer callback
(`Load` and `Remaining` do not mutate the gate, being pure reads);
under the invariant, an achieved gate's `Remaining` is `0` at every
observation time. -/
theorem c3_invariant (f : DelayedFlag) (d now t : Int) (g : Nat)
    (h : GateInv f) :
    GateInv (NewDelayedFlag d now) ∧
    GateInv (f.Reset now) ∧
    GateInv (f.fireTimer g) ∧
    (f.val = true → f.Remaining t = 0) := by
  refine ⟨?_, ?_, ?_, ?_⟩
  · intro hv
    unfold NewDelayedFlag at hv ⊢
    by_cases hd : (d : Int) ≤ 0
    · rw [Reset_nonpos _ _ hd]
    · rw [Reset_pos _ _ (by show (0 : Int) < d; omega)] at hv
      exact absurd hv (by simp)
  · intro hv
    by_cases hd : f.delay ≤ 0
    · rw [Reset_nonpos _ _ hd]
    · rw [Reset_pos _ _ (by omega)] at hv
      exact absurd hv (by simp)
  · intro hv
    unfold DelayedFlag.fireTimer at hv ⊢
    by_cases hg : f.gen ≠ g
    · rw [if_pos hg] at hv ⊢
      exact h hv
    · rw [if_neg hg]
  · intro hv
    unfold DelayedFlag.Remaining
    rw [h hv]
    rfl

/-- Witness for C3 at a concrete achieved gate (invariant holds: the gate is
achieved with deadline 0). -/
theorem c3_invariant_witness :
    GateInv (NewDelayedFlag 5 0) ∧
    GateInv (DelayedFlag.Reset
      { delay := 5, val := true, deadline := 0, gen := 2, timer := none } 0) ∧
    GateInv (DelayedFlag.fireTimer
      { delay := 5, val := true, deadline := 0, gen := 2, timer := none } 2) ∧
    (DelayedFlag.Remaining
      { delay := 5, val := true, deadline := 0, gen := 2, timer := none } 9 = 0) := by
  have h := c3_invariant
    { delay := 5, val := true, deadline := 0, gen := 2, timer := none }
    5 0 9 2 (fun _ => rfl)
  exact ⟨h.1, h.2.1, h.2.2.1, h.2.2.2 rfl⟩

/-- C8: with no `Reset` in between (i.e. on one and the same gate state),
`Remaining` is monotonically non-increasing in the observation time, never
negative, `0` for an achieved gate satisfying the data-model invariant, and
exactly `0` at every time after the current generation's transition has
fired. -/
theorem c8_remaining_monotone (f : DelayedFlag) (t1 t2 : Int) (h : t1 ≤ t2) :
    f.Remaining t2 ≤ f.Remaining t1 ∧
    0 ≤ f.Remaining t2 ∧
    (GateInv f → f.val = true → f.Remaining t1 = 0) ∧
    (∀ t, (f.fireTimer f.gen).Remaining t = 0) := by
  refine ⟨?_, ?_, ?_, ?_⟩
  · unfold DelayedFlag.Remaining
    dsimp only
    split_ifs <;> omega
  · unfold DelayedFlag.Remaining
    dsimp only
    split_ifs <;> omega
  · intro hinv hv
    unfold DelayedFlag.Remaining
    rw [hinv hv]
    rfl
  · intro t
    unfold DelayedFlag.fireTimer
    rw [if_neg (by simp)]
    unfold DelayedFlag.Remaining
    rfl

/-- Witness for C8 at a concrete pending gate observed at times 2 and 4. -/
theorem c8_remaining_monotone_witness :
    (gate5.Reset 0).Remaining 4 ≤ (gate5.Reset 0).Remaining 2 ∧
    0 ≤ (gate5.Reset 0).Remaining 4 ∧
    ((gate5.Reset 0).fireTimer (gate5.Reset 0).gen).Remaining 9 = 0 := by
  have h := c8_remaining_monotone (gate5.Reset 0) 2 4 (by decide)
  exact ⟨h.1, h.2.1, h.2.2.2 9⟩

/-! ### JSON responses and response-writer call traces -/

/-- A JSON value as produced by the handlers' `map[string]any` payloads:
strings, integers (the `Milliseconds` values) and booleans. -/
inductive JVal where
  | str (s : String)
  | int (n : Int)
  | bool (b : Bool)
  deriving DecidableEq, Repr

/-- A JSON object payload, as the ordered field list of the Go handler
literal. -/
abbrev JObj := List (String × JVal)

/-- Rendering of a `JVal`.  String escaping is omitted: every string the
program places in a body is quote-free. -/
def JVal.render : JVal → String
  | .str s => "\"" ++ s ++ "\""
  | .int n => toString n
  | .bool b => if b then "true" else "false"

/-- Rendering of the comma-separated field list of a JSON object. -/
def renderFields : JObj → String
  | [] => ""
  | [(k, v)] => "\"" ++ k ++ "\":" ++ v.render
  | (k, v) :: rest => "\"" ++ k ++ "\":" ++ v.render ++ "," ++ renderFields rest

/-- Rendering of a JSON object (`encoding/json`); field order follows the
handler's literal and escaping is omitted, which no claim depends on. -/
def JObj.render (o : JObj) : String := "\x7b" ++ renderFields o ++ "\x7d"

/-- Go's `time.Time.Format(time.RFC3339Nano)` on the current UTC time,
abstracted to an injective rendering of the nanosecond timestamp: no claim
depends on the textual format of the `time` field, only on its presence. -/
def rfc3339 (t : Int) : String := toString t

/-- Go's `time.Duration.Milliseconds()` (truncating `int64` division by
`10^6`, toward zero like Go's `/`). -/
def durMilliseconds (d : Int) : Int := Int.tdiv d 1000000

/-- Go's `time.Duration.String()`, abstracted to a rendering of the
nanosecond count: no claim depends on the textual format of the `delay`
field, only on its presence. -/
def durString (d : Int) : String := toString d

/-- One call made on the `http.ResponseWriter` during a request:
`Header().Set`, `WriteHeader`, or `Write` (with the bytes written; in the
model every write is accepted in full by the underlying writer). -/
inductive WCall where
  | setHeader (k v : String)
  | writeHeader (status : Nat)
  | write (b : String)
  deriving DecidableEq, Repr

/-- Embedding of `writeJSON` (main.go:395-399): set the content type, write
the status header, encode the payload. -/
def writeJSON (status : Nat) (payload : JObj) : List WCall :=
  [.setHeader "Content-Type" "application/json; charset=utf-8",
   .writeHeader status,
   .write payload.render]

/-- Embedding of `writeError` (main.go:402-407). -/
def writeError (status : Nat) (code : String) (now : Int) : List WCall :=
  writeJSON status [("error", .str code), ("time", .str (rfc3339 now))]

/-! ### Route handlers -/

/-- The slice of the resolved configuration struct `cfg` (main.go:29-40)
that the route handlers read. -/
structure Cfg where
  ServiceName : String
  Version : String
  StartupDelay : Int
  deriving DecidableEq, Repr

/-- The two gates owned by the service (main.go:48-49). -/
structure ServerState where
  health : DelayedFlag
  ready : DelayedFlag
  deriving DecidableEq, Repr

/-- Embedding of the `/healthz` handler (main.go:54-75). -/
def healthzHandler (c : Cfg) (health : DelayedFlag) (now : Int)
    (method : String) : List WCall :=
  if method ≠ "GET" then writeError 405 "method_not_allowed" now
  else if health.Load = false then
    writeJSON 503
      [("status", .str "unhealthy"),
       ("service", .str c.ServiceName),
       ("version", .str c.Version),
       ("time", .str (rfc3339 now)),
       ("retry_after_ms", .int (durMilliseconds (health.Remaining now)))]
  else
    writeJSON 200
      [("status", .str "ok"),
       ("service", .str c.ServiceName),
       ("version", .str c.Version),
       ("time", .str (rfc3339 now))]

/-- Embedding of the `/readyz` handler (main.go:78-99). -/
def readyzHandler (c : Cfg) (ready : DelayedFlag) (now : Int)
    (method : String) : List WCall :=
  if method ≠ "GET" then writeError 405 "method_not_allowed" now
  else if ready.Load = false then
    writeJSON 503
      [("status", .str "not-ready"),
       ("service", .str c.ServiceName),
       ("version", .str c.Version),
       ("time", .str (rfc3339 now)),
       ("retry_after_ms", .int (durMilliseconds (ready.Remaining now)))]
  else
    writeJSON 200
      [("status", .str "ready"),
       ("service", .str c.ServiceName),
       ("version", .str c.Version),
       ("time", .str (rfc3339 now))]

/-- Embedding of the `/admin/reset` handler (main.go:103-118): resets both
gates, then echoes the new remaining delays. -/
def adminResetHandler (c : Cfg) (st : ServerState) (now : Int)
    (method : String) : ServerState × List WCall :=
  if method ≠ "POST" then (st, writeError 405 "method_not_allowed" now)
  else
    let health := st.health.Reset now
    let ready := st.ready.Reset now
    ({ health := health, ready := ready },
     writeJSON 200
       [("health", .bool false),
        ("ready", .bool false),
        ("delay", .str (durString c.StartupDelay)),
        ("time", .str (rfc3339 now)),
        ("health_in_ms", .int (durMilliseconds (health.Remaining now))),
        ("ready_in_ms", .int (durMilliseconds (ready.Remaining now)))])

/-- Embedding of the `/admin/health/reset` handler (main.go:121-133). -/
def adminHealthResetHandler (c : Cfg) (st : ServerState) (now : Int)
    (method : String) : ServerState × List WCall :=
  if method ≠ "POST" then (st, writeError 405 "method_not_allowed" now)
  else
    let health := st.health.Reset now
    ({ st with health := health },
     writeJSON 200
       [("health", .bool false),
        ("delay", .str (durString c.StartupDelay)),
        ("time", .str (rfc3339 now)),
        ("health_in_ms", .int (durMilliseconds (health.Remaining now)))])

/-- Embedding of the `/admin/ready/reset` handler (main.go:136-148). -/
def adminReadyResetHandler (c : Cfg) (st : ServerState) (now : Int)
    (method : String) : ServerState × List WCall :=
  if method ≠ "POST" then (st, writeError 405 "method_not_allowed" now)
  else
    let ready := st.ready.Reset now
    ({ st with ready := ready },
     writeJSON 200
       [("ready", .bool false),
        ("delay", .str (durString c.StartupDelay)),
        ("time", .str (rfc3339 now)),
        ("ready_in_ms", .int (durMilliseconds (ready.Remaining now)))])

/-- `http.ServeMux`'s not-found response for unregistered paths
(`http.NotFound` of the standard library, an external collaborator). -/
def notFoundCalls : List WCall :=
  [.setHeader "Content-Type" "text/plain; charset=utf-8",
   .setHeader "X-Content-Type-Options" "nosniff",
   .writeHeader 404,
   .write "404 page not found\n"]

/-- The mux dispatch over the five registered routes (main.go:51-148); the
registered patterns have no trailing slash, so each matches its path
exactly. -/
def serveMux (c : Cfg) (st : ServerState) (now : Int)
    (method path : String) : ServerState × List WCall :=
  if path = "/healthz" then (st, healthzHandler c st.health now method)
  else if path = "/readyz" then (st, readyzHandler c st.ready now method)
  else if path = "/admin/reset" then adminResetHandler c st now method
  else if path = "/admin/health/reset" then adminHealthResetHandler c st now method
  else if path = "/admin/ready/reset" then adminReadyResetHandler c st now method
  else (st, notFoundCalls)

/-- C7: a `GET /healthz` request reads only the health gate — the response
is identical for any value of the ready gate — and yields 503 with body
fields `status:"unhealthy"`, `service`, `version`, `time` and
`retry_after_ms` equal to the gate's remaining delay in milliseconds when
the gate is not achieved, and 200 with body fields `status:"ok"`,
`service`, `version`, `time` (and no `retry_after_ms`) when it is; the
gate state is not mutated. -/
theorem c7_healthz (c : Cfg) (st : ServerState) (r2 : DelayedFlag)
    (now : Int) (method : String) (hm : method = "GET") :
    serveMux c st now method "/healthz" =
      (st,
       if st.health.Load = false then
         writeJSON 503
           [("status", .str "unhealthy"),
            ("service", .str c.ServiceName),
            ("version", .str c.Version),
            ("time", .str (rfc3339 now)),
            ("retry_after_ms", .int (durMilliseconds (st.health.Remaining now)))]
       else
         writeJSON 200
           [("status", .str "ok"),
            ("service", .str c.ServiceName),
            ("version", .str c.Version),
            ("time", .str (rfc3339 now))]) ∧
    (serveMux c st now method "/healthz").2 =
      (serveMux c { st with ready := r2 } now method "/healthz").2 := by
  subst hm
  constructor
  · unfold serveMux healthzHandler
    rw [if_pos rfl, if_neg (by simp)]
  · unfold serveMux
    rw [if_pos rfl, if_pos rfl]

/-- Concrete configuration used in witnesses. -/
def cfg0 : Cfg := { ServiceName := "simple-api", Version := "0.1.0", StartupDelay := 5 }

/-- Concrete server state used in witnesses: health pending, ready achieved. -/
def state0 : ServerState :=
  { health := gate5.Reset 0, ready := (gate5.Reset 0).fireTimer (gate5.Reset 0).gen }

/-- Witness for C7 at a concrete pending health gate. -/
theorem c7_healthz_witness :
    serveMux cfg0 state0 2 "GET" "/healthz" =
      (state0,
       if state0.health.Load = false then
         writeJSON 503
           [("status", .str "unhealthy"),
            ("service", .str cfg0.ServiceName),
            ("version", .str cfg0.Version),
            ("time", .str (rfc3339 2)),
            ("retry_after_ms", .int (durMilliseconds (state0.health.Remaining 2)))]
       else
         writeJSON 200
           [("status", .str "ok"),
            ("service", .str cfg0.ServiceName),
            ("version", .str cfg0.Version),
            ("time", .str (rfc3339 2))]) := by
  exact (c7_healthz cfg0 state0 gate5 2 "GET" rfl).1

/-- C9: a non-GET request to a probe route, and a non-POST request to an
admin route, yields 405 with the `method_not_allowed` / `time` error body,
leaves the gates unchanged, and produces a response independent of the gate
state (no gate is read). -/
theorem c9_method_not_allowed (c : Cfg) (st st' : ServerState) (now : Int)
    (method path : String)
    (h : ((path = "/healthz" ∨ path = "/readyz") ∧ method ≠ "GET") ∨
         ((path = "/admin/reset" ∨ path = "/admin/health/reset" ∨
           path = "/admin/ready/reset") ∧ method ≠ "POST")) :
    serveMux c st now method path = (st, writeError 405 "method_not_allowed" now) ∧
    (serveMux c st now method path).2 = (serveMux c st' now method path).2 := by
  have key : ∀ s : ServerState,
      serveMux c s now method path = (s, writeError 405 "method_not_allowed" now) := by
    intro s
    rcases h with ⟨hp | hp, hm⟩ | ⟨hp | hp | hp, hm⟩ <;> subst hp
    · unfold serveMux healthzHandler
      rw [if_pos rfl, if_pos hm]
    · unfold serveMux readyzHandler
      rw [if_pos rfl, if_neg (by decide), if_pos hm]
    · unfold serveMux adminResetHandler
      rw [if_neg (by decide), if_neg (by decide), if_pos rfl, if_pos hm]
    · unfold serveMux adminHealthResetHandler
      rw [if_neg (by decide), if_neg (by decide), if_neg (by decide), if_pos rfl,
        if_pos hm]
    · unfold serveMux adminReadyResetHandler
      rw [if_neg (by decide), if_neg (by decide), if_neg (by decide),
        if_neg (by decide), if_pos rfl, if_pos hm]
  exact ⟨key st, by rw [key st, key st']⟩

/-- Witness for C9: a POST to `/healthz` on a concrete state. -/
theorem c9_method_not_allowed_witness :
    serveMux cfg0 state0 2 "POST" "/healthz" =
      (state0, writeError 405 "method_not_allowed" 2) := by
  exact (c9_method_not_allowed cfg0 state0 state0 2 "POST" "/healthz"
    (Or.inl ⟨Or.inl rfl, by decide⟩)).1

/-! ### Middleware pipeline -/

/-- The request data the middleware stages act on: method and path (for the
access log), the request-scoped context value holding the correlation
identifier (`context.WithValue` with `ctxKeyRequestID`; `none` on an inbound
request, whose base context is `context.Background()`), and the body-size
limit installed by `http.MaxBytesReader`, if any. -/
structure Req where
  method : String
  path : String
  ctx : Option String
  bodyLimit : Option Int
  deriving DecidableEq, Repr

/-- Per-request environment supplied by the runtime: the random identifier
`newRequestID` returns for this request, the wall-clock time (nanoseconds)
at which an error body is stamped, and the elapsed milliseconds
`time.Since(start).Milliseconds()` measured by the access-log stage. -/
structure Env where
  reqID : String
  now : Int
  durationMs : Int
  deriving DecidableEq, Repr

/-- A structured log record emitted through the `slog` logger: the
`http_request` access-log record (main.go:354-364; the `ua`, `remote` and
`xff` client metadata are copied verbatim from the request and elided) or
the `panic recovered` error record (main.go:320-323). -/
inductive LogRecord where
  | httpRequest (method path : String) (status : Nat) (bytes : Nat)
      (durationMs : Int) (requestID : String)
  | panicRecovered (requestID : String)
  deriving DecidableEq, Repr

/-- The observable outcome of running a handler on a request: the response
writer calls it made, the log records it emitted, and whether it exited by
panicking rather than returning. -/
structure HResult where
  calls : List WCall
  logs : List LogRecord
  panicked : Bool
  deriving DecidableEq, Repr

/-- An `http.Handler`, modelled as a function from the per-request
environment and the request to the observable outcome. -/
def Handler := Env → Req → HResult

/-- The `middleware` function type (main.go:298). -/
def middleware := Handler → Handler

/-- Embedding of `requestIDFromContext` (main.go:417-423). -/
def requestIDFromContext : Option String → String
  | some s => s
  | none => ""

/-- Embedding of the `statusWriter` wrapper's captured state
(main.go:370-374): the recorded status code and byte count. -/
structure statusWriter where
  status : Nat
  bytes : Nat
  deriving DecidableEq, Repr

/-- Embedding of `statusWriter.WriteHeader` / `statusWriter.Write`
(main.go:377-387) as one step per writer call: `WriteHeader` stores the
status code, `Write` adds the count of bytes the underlying writer accepted
(in the model, all of them), and a header set does not touch the wrapper. -/
def statusWriter.step (w : statusWriter) : WCall → statusWriter
  | .writeHeader s => { w with status := s }
  | .write b => { w with bytes := w.bytes + b.length }
  | .setHeader _ _ => w

/-- Replay of a request's writer calls through a fresh `statusWriter`, whose
status starts at `http.StatusOK` (main.go:350). -/
def swRun (calls : List WCall) : statusWriter :=
  calls.foldl statusWriter.step { status := 200, bytes := 0 }

/-- Embedding of the `requestID` middleware (main.go:302-311): generate an
identifier, set the `X-Request-Id` response header, and pass a request copy
whose context carries the identifier to the next stage.  Note the context
value is set only on the inner copy — the caller's request is unchanged. -/
def requestID : middleware := fun next env r =>
  let id := env.reqID
  let res := next env { r with ctx := some id }
  { res with calls := WCall.setHeader "X-Request-Id" id :: res.calls }

/-- Embedding of the `recoverer` middleware (main.go:315-330): if the next
stage panicked, log the panic (with the identifier found in *its own*
request's context) and write the generic 500 error body; otherwise pass the
outcome through.  The recovered outcome never panics. -/
def recoverer : middleware := fun next env r =>
  let res := next env r
  if res.panicked then
    { calls := res.calls ++ writeError 500 "internal_error" env.now,
      logs := res.logs ++ [LogRecord.panicRecovered (requestIDFromContext r.ctx)],
      panicked := false }
  else res

/-- Embedding of the `maxBody` middleware (main.go:334-343): a positive
maximum installs `http.MaxBytesReader` on the request body, a non-positive
one disables limiting. -/
def maxBody (maxBytes : Int) : middleware := fun next env r =>
  next env (if 0 < maxBytes then { r with bodyLimit := some maxBytes } else r)

/-- Embedding of the `accessLog` middleware (main.go:346-367): run the next
stage against a fresh `statusWriter` wrapper, then emit one `http_request`
record with the method, path, recorded status and bytes, duration, and the
identifier found in *its own* request's context.  If the next stage
panicked, the panic propagates before `log.Info` runs. -/
def accessLog : middleware := fun next env r =>
  let res := next env r
  if res.panicked then res
  else
    let sw := swRun res.calls
    { res with
        logs := res.logs ++
          [LogRecord.httpRequest r.method r.path sw.status sw.bytes
            env.durationMs (requestIDFromContext r.ctx)] }

/-- Embedding of `withMiddleware` (main.go:288-295); the `*slog.Logger`
argument is the sink the records go to and is elided. -/
def withMiddleware (next : Handler) (maxBodyBytes : Int) : Handler :=
  let h := next
  let h1 := maxBody maxBodyBytes h
  let h2 := requestID h1
  let h3 := recoverer h2
  let h4 := accessLog h3
  h4

/-- C5: the composed pipeline is exactly the fixed nesting
`accessLog (recoverer (requestID (maxBody next)))` — access logging
outermost, then panic recovery, then correlation-ID attachment, then
body-size limiting innermost — and for a positive configured maximum the
body-limiting stage hands every downstream stage the request with the limit
installed. -/
theorem c5_pipeline_order (next : Handler) (m : Int) (env : Env) (r : Req) :
    withMiddleware next m = accessLog (recoverer (requestID (maxBody m next))) ∧
    (0 < m → maxBody m next env r = next env { r with bodyLimit := some m }) := by
  refine ⟨rfl, fun h => ?_⟩
  unfold maxBody
  rw [if_pos h]

/-- An inner handler answering 200 with a one-field JSON body, used in
witnesses and counterexamples. -/
def okInner : Handler := fun _ _ =>
  { calls := writeJSON 200 [("status", .str "ok")], logs := [], panicked := false }

/-- An inner handler that panics immediately, before writing or logging
anything, used in witnesses. -/
def panicInner : Handler := fun _ _ => { calls := [], logs := [], panicked := true }

/-- An inner handler that writes the correlation identifier it finds in its
request context, used to observe context propagation. -/
def ctxProbe : Handler := fun _ r =>
  { calls := [WCall.write (requestIDFromContext r.ctx)], logs := [], panicked := false }

/-- Concrete per-request environment used in witnesses. -/
def env0 : Env := { reqID := "test-id-123", now := 4, durationMs := 7 }

/-- A concrete inbound request (no context value, no body limit yet). -/
def req0 : Req := { method := "GET", path := "/healthz", ctx := none, bodyLimit := none }

/-- Witness for C5 at a concrete handler, limit, environment and request. -/
theorem c5_pipeline_order_witness :
    withMiddleware okInner 1048576 =
      accessLog (recoverer (requestID (maxBody 1048576 okInner))) ∧
    maxBody 1048576 okInner env0 req0 =
      okInner env0 { req0 with bodyLimit := some 1048576 } := by
  obtain ⟨h1, h2⟩ := c5_pipeline_order okInner 1048576 env0 req0
  exact ⟨h1, h2 (by decide)⟩

/-- C4 (code bug): on an inbound request the access-log record's
`request_id` field is always the empty string, not the identifier the
correlation-ID stage generated.  `requestID` stores the identifier only on
the inner copy of the request it passes downstream, while `accessLog` sits
*outside* `requestID` and reads the context of the original request, where
no identifier was ever stored.  The identifier is nevertheless exposed as
the `X-Request-Id` response header and is visible to all inner stages via
the request context, as the `ctxProbe` handler observes. -/
theorem c4_access_log_missing_request_id :
    (withMiddleware okInner 1048576 env0 req0).logs =
      [LogRecord.httpRequest "GET" "/healthz" 200 15 7 ""] ∧
    (withMiddleware okInner 1048576 env0 req0).calls =
      [WCall.setHeader "X-Request-Id" "test-id-123",
       WCall.setHeader "Content-Type" "application/json; charset=utf-8",
       WCall.writeHeader 200,
       WCall.write "\x7b\"status\":\"ok\"\x7d"] ∧
    (withMiddleware ctxProbe 1048576 env0 req0).calls =
      [WCall.setHeader "X-Request-Id" "test-id-123",
       WCall.write "test-id-123"] ∧
    "" ≠ env0.reqID := by
  refine ⟨?_, ?_, ?_, ?_⟩ <;> decide

/-- C6: a request whose inner handler raises an unrecovered fault before
writing or logging anything is answered by the panic-recovery stage: the
pipeline's outcome is not a panic (the process keeps serving), the response
trace is exactly the `X-Request-Id` header followed by the generic
`writeError 500 "internal_error"` calls — a JSON body with exactly the
fields `error` and `time`, independent of the fault, so no detail leaks —
the recorded response status is 500, and the fault is logged server-side
(one `panic recovered` record), followed by the access-log record. -/
theorem c6_panic_recovery (next : Handler) (m : Int) (env : Env) (r : Req)
    (hc : ∀ e q, (next e q).calls = [])
    (hl : ∀ e q, (next e q).logs = [])
    (hp : ∀ e q, (next e q).panicked = true) :
    (withMiddleware next m env r).panicked = false ∧
    (withMiddleware next m env r).calls =
      WCall.setHeader "X-Request-Id" env.reqID ::
        writeError 500 "internal_error" env.now ∧
    (swRun (withMiddleware next m env r).calls).status = 500 ∧
    (withMiddleware next m env r).logs =
      [LogRecord.panicRecovered (requestIDFromContext r.ctx),
       LogRecord.httpRequest r.method r.path 500
         (swRun (withMiddleware next m env r).calls).bytes
         env.durationMs (requestIDFromContext r.ctx)] := by
  have hres : ∀ e q, next e q = { calls := [], logs := [], panicked := true } := by
    intro e q
    have h1 := hc e q
    have h2 := hl e q
    have h3 := hp e q
    cases hq : next e q
    rw [hq] at h1 h2 h3
    simp only at h1 h2 h3
    rw [h1, h2, h3]
  refine ⟨?_, ?_, ?_, ?_⟩ <;>
    simp [withMiddleware, accessLog, recoverer, requestID, maxBody, hres,
      writeError, writeJSON, swRun, statusWriter.step]

/-- Witness for C6: the immediately-panicking inner handler on a concrete
request. -/
theorem c6_panic_recovery_witness :
    (withMiddleware panicInner 1048576 env0 req0).panicked = false ∧
    (withMiddleware panicInner 1048576 env0 req0).calls =
      WCall.setHeader "X-Request-Id" "test-id-123" ::
        writeError 500 "internal_error" 4 ∧
    (swRun (withMiddleware panicInner 1048576 env0 req0).calls).status = 500 := by
  have h := c6_panic_recovery panicInner 1048576 env0 req0
    (fun _ _ => rfl) (fun _ _ => rfl) (fun _ _ => rfl)
  exact ⟨h.1, h.2.1, h.2.2.1⟩

/-! ### The `statusWriter` recording discipline (C10) -/

/-- The status resulting from the *first* `WriteHeader` call of a trace —
this definition follows the claim's words, for comparison with the code's
`statusWriter`. -/
def firstWriteHeaderStatus : List WCall → Option Nat
  | [] => none
  | .writeHeader s :: _ => some s
  | _ :: rest => firstWriteHeaderStatus rest

/-- The status resulting from the *last* `WriteHeader` call of a trace. -/
def lastWriteHeaderStatus : List WCall → Option Nat
  | [] => none
  | .writeHeader s :: rest => some ((lastWriteHeaderStatus rest).getD s)
  | _ :: rest => lastWriteHeaderStatus rest

/-- The total number of bytes written across the `Write` calls of a trace. -/
def sumWriteBytes : List WCall → Nat
  | [] => 0
  | .write b :: rest => b.length + sumWriteBytes rest
  | _ :: rest => sumWriteBytes rest

/-- Replaying a trace from any starting `statusWriter` state records the
last `WriteHeader` argument (keeping the starting status when there is
none) and adds the total bytes written. -/
theorem swRun_foldl (calls : List WCall) (w : statusWriter) :
    (calls.foldl statusWriter.step w).status = (lastWriteHeaderStatus calls).getD w.status ∧
    (calls.foldl statusWriter.step w).bytes = w.bytes + sumWriteBytes calls := by
  induction calls generalizing w with
  | nil => simp [lastWriteHeaderStatus, sumWriteBytes]
  | cons c rest ih =>
    cases c with
    | setHeader k v =>
      simpa [statusWriter.step, lastWriteHeaderStatus, sumWriteBytes] using ih w
    | writeHeader s =>
      have h := ih { w with status := s }
      simp [statusWriter.step, lastWriteHeaderStatus, sumWriteBytes, h.1, h.2]
    | write b =>
      have h := ih { w with bytes := w.bytes + b.length }
      simp [statusWriter.step, lastWriteHeaderStatus, sumWriteBytes, h.1, h.2]
      omega

/-- C10 counterexample: on a trace with two `WriteHeader` calls the
`statusWriter` records the argument of the *last* call, not of the first as
the claim states. -/
theorem c10_first_writeheader_refuted :
    firstWriteHeaderStatus [WCall.writeHeader 201, WCall.writeHeader 500] = some 201 ∧
    (swRun [WCall.writeHeader 201, WCall.writeHeader 500]).status = 500 ∧
    (swRun [WCall.writeHeader 201, WCall.writeHeader 500]).status ≠ 201 := by
  decide

/-- C10 (amended): for every trace of writer calls, the `statusWriter`
records the argument of the *last* `WriteHeader` call (200 when the chain
never calls `WriteHeader` — which coincides with the first call's argument
whenever `WriteHeader` is called at most once, as in every handler of this
program), and the recorded byte count is the sum of the bytes successfully
written across all `Write` calls. -/
theorem c10_statuswriter_records (calls : List WCall) :
    (swRun calls).status = (lastWriteHeaderStatus calls).getD 200 ∧
    (swRun calls).bytes = sumWriteBytes calls := by
  have h := swRun_foldl calls { status := 200, bytes := 0 }
  exact ⟨h.1, by simpa using h.2⟩

end SimpleServer
